import Mathlib

/-!
Verification of the usage-metering, quota-enforcement and media-pipeline
orchestration subsystem of the voith-platform backend.

The Python sources are shallowly embedded: Python floats are modelled as
exact rationals (ℚ), byte counters as integers (ℤ), fallible calls as
`Except`/`Option` values, and the mutable per-user usage table as explicit
state passed through each operation.  External collaborators (the Supabase
client, WhisperX, GoogleTranslator, the mT5 generator) are parameters of
the embedded functions.
-/

/-! ## Usage records and the quota gate (src/services/db_service.py, main.py) -/

/-- A row of the `usage_metrics` table.  The Python code reads the two
counters with `metrics.get('minutes_processed', 0)` /
`current.get('minutes_processed') or 0`, so a row may lack either field;
missing fields are modelled as `none`. -/
structure UsageRecord where
  minutes_processed : Option ℚ
  storage_used_bytes : Option ℤ
deriving DecidableEq

/-- Outcome of `check_quota`: either the request proceeds or an
HTTPException 403 ("forbidden") is raised. -/
inductive QuotaOutcome
  | admitted
  | forbidden
deriving DecidableEq

/-- `MONTHLY_LIMIT_MINUTES = 10.0` — the free-tier ceiling in `check_quota`. -/
def MONTHLY_LIMIT_MINUTES : ℚ := 10.0

/-- Python truthiness of an optional string: `None` and `""` are falsy. -/
def pyTruthy : Option String → Bool
  | none => false
  | some s => s ≠ ""

/-- `check_quota` from main.py.  `get_usage_metrics` stands for
`db_service.get_usage_metrics`, which returns `None` both when the user
has no row and when the Supabase client is not configured. -/
def check_quota (user_id : Option String)
    (get_usage_metrics : String → Option UsageRecord) : QuotaOutcome :=
  match user_id with
  | none => .admitted
  | some uid =>
    if uid = "" then .admitted
    else
      match get_usage_metrics uid with
      | none => .admitted
      | some metrics =>
        if metrics.minutes_processed.getD 0 ≥ MONTHLY_LIMIT_MINUTES then
          .forbidden
        else
          .admitted

/-- C1: `check_quota` rejects exactly when an existing usage row shows
`minutes_processed >= 10.0`; a row at exactly 10.0 is rejected, one at
9.999 is admitted, a request with no user identifier is always admitted,
and a user with no row is admitted. -/
theorem quota_gate_exact (g : String → Option UsageRecord) (uid : String)
    (h : uid ≠ "") :
    (check_quota (some uid) g = .forbidden ↔
      ∃ m, g uid = some m ∧ MONTHLY_LIMIT_MINUTES ≤ m.minutes_processed.getD 0) ∧
    (∀ b, g uid = some ⟨some 10.0, b⟩ → check_quota (some uid) g = .forbidden) ∧
    (∀ b, g uid = some ⟨some 9.999, b⟩ → check_quota (some uid) g = .admitted) ∧
    (∀ g2, check_quota none g2 = .admitted) ∧
    (g uid = none → check_quota (some uid) g = .admitted) := by
  have main : check_quota (some uid) g = .forbidden ↔
      ∃ m, g uid = some m ∧ MONTHLY_LIMIT_MINUTES ≤ m.minutes_processed.getD 0 := by
    simp only [check_quota, if_neg h]
    cases hg : g uid with
    | none => simp
    | some m =>
      by_cases hm : m.minutes_processed.getD 0 ≥ MONTHLY_LIMIT_MINUTES
      · simp only [if_pos hm]
        exact iff_of_true trivial ⟨m, rfl, hm⟩
      · simp only [if_neg hm]
        constructor
        · intro hcontra
          exact absurd hcontra (by decide)
        · rintro ⟨m2, hm2, hge⟩
          injection hm2 with hmm
          subst hmm
          exact absurd hge hm
  refine ⟨main, ?_, ?_, fun g2 => rfl, ?_⟩
  · intro b hb
    exact main.mpr ⟨⟨some 10.0, b⟩, hb, by norm_num [MONTHLY_LIMIT_MINUTES]⟩
  · intro b hb
    have hlt : ¬ ((⟨some 9.999, b⟩ : UsageRecord).minutes_processed.getD 0 ≥ MONTHLY_LIMIT_MINUTES) := by
      norm_num [MONTHLY_LIMIT_MINUTES]
    simp only [check_quota, if_neg h, hb, if_neg hlt]
  · intro hg
    simp [check_quota, if_neg h, hg]

/-- Witness for C1: a concrete user "u" whose row sits exactly at the
10.0-minute ceiling is rejected. -/
theorem quota_gate_exact_witness :
    ("u" ≠ "") ∧
    check_quota (some "u") (fun _ => some ⟨some 10.0, some 0⟩) = .forbidden :=
  ⟨by decide,
   (quota_gate_exact (fun _ => some ⟨some 10.0, some 0⟩) "u" (by decide)).2.1
     (some 0) rfl⟩

/-! ## The usage ledger (DBService.update_usage_metrics) -/

/-- `DBService.update_usage_metrics` for one user, acting on the user's
current row (`none` = no row exists yet).  If no row exists a new one is
created with the deltas as initial values; otherwise the deltas are added
to the stored cumulative values (`current.get(...) or 0` treats a missing
or null field as 0). -/
def update_usage_metrics (current : Option UsageRecord)
    (minutes_added : ℚ) (storage_added_bytes : ℤ) : UsageRecord :=
  match current with
  | none =>
    { minutes_processed := some minutes_added
      storage_used_bytes := some storage_added_bytes }
  | some c =>
    { minutes_processed := some (c.minutes_processed.getD 0 + minutes_added)
      storage_used_bytes := some (c.storage_used_bytes.getD 0 + storage_added_bytes) }

/-- A serialized sequence of `update_usage_metrics` calls for one user,
starting from no existing row. -/
def run_ledger (deltas : List (ℚ × ℤ)) : Option UsageRecord :=
  deltas.foldl (fun st d => some (update_usage_metrics st d.1 d.2)) none

/-- The minutes counter a quota check would read from a ledger state. -/
def minutes_of : Option UsageRecord → ℚ
  | none => 0
  | some r => r.minutes_processed.getD 0

/-- The byte counter stored in a ledger state. -/
def bytes_of : Option UsageRecord → ℤ
  | none => 0
  | some r => r.storage_used_bytes.getD 0

theorem run_ledger_from (deltas : List (ℚ × ℤ)) (st : Option UsageRecord) :
    minutes_of (deltas.foldl (fun st d => some (update_usage_metrics st d.1 d.2)) st)
      = minutes_of st + (deltas.map Prod.fst).sum ∧
    bytes_of (deltas.foldl (fun st d => some (update_usage_metrics st d.1 d.2)) st)
      = bytes_of st + (deltas.map Prod.snd).sum := by
  induction deltas generalizing st with
  | nil => simp
  | cons d rest ih =>
    obtain ⟨ihm, ihb⟩ := ih (some (update_usage_metrics st d.1 d.2))
    constructor
    · rw [List.foldl_cons, ihm]
      cases st with
      | none => simp [update_usage_metrics, minutes_of, add_assoc]
      | some c => simp [update_usage_metrics, minutes_of, add_assoc]
    · rw [List.foldl_cons, ihb]
      cases st with
      | none => simp [update_usage_metrics, bytes_of, add_assoc]
      | some c => simp [update_usage_metrics, bytes_of, add_assoc]

/-- C4: starting from no record, the first `update_usage_metrics` call
creates the row with its deltas as initial values, each later call adds
its deltas, and the final counters equal the sums of all deltas,
invariant under permutation of the call sequence. -/
theorem ledger_accumulates (deltas : List (ℚ × ℤ)) :
    minutes_of (run_ledger deltas) = (deltas.map Prod.fst).sum ∧
    bytes_of (run_ledger deltas) = (deltas.map Prod.snd).sum ∧
    (∀ m b, update_usage_metrics none m b = ⟨some m, some b⟩) ∧
    (∀ c m b, update_usage_metrics (some c) m b
        = ⟨some (c.minutes_processed.getD 0 + m), some (c.storage_used_bytes.getD 0 + b)⟩) ∧
    (∀ deltas2, deltas.Perm deltas2 →
      minutes_of (run_ledger deltas2) = minutes_of (run_ledger deltas) ∧
      bytes_of (run_ledger deltas2) = bytes_of (run_ledger deltas)) := by
  have base := run_ledger_from deltas none
  refine ⟨by simpa [run_ledger, minutes_of] using base.1,
    by simpa [run_ledger, bytes_of] using base.2,
    fun m b => rfl, fun c m b => rfl, ?_⟩
  intro deltas2 hperm
  have b2 := run_ledger_from deltas2 none
  have hm : (deltas2.map Prod.fst).sum = (deltas.map Prod.fst).sum :=
    ((hperm.map Prod.fst).sum_eq).symm
  have hb : (deltas2.map Prod.snd).sum = (deltas.map Prod.snd).sum :=
    ((hperm.map Prod.snd).sum_eq).symm
  constructor
  · calc minutes_of (run_ledger deltas2)
        = minutes_of none + (deltas2.map Prod.fst).sum := b2.1
      _ = minutes_of none + (deltas.map Prod.fst).sum := by rw [hm]
      _ = minutes_of (run_ledger deltas) := base.1.symm
  · calc bytes_of (run_ledger deltas2)
        = bytes_of none + (deltas2.map Prod.snd).sum := b2.2
      _ = bytes_of none + (deltas.map Prod.snd).sum := by rw [hb]
      _ = bytes_of (run_ledger deltas) := base.2.symm

/-- Witness for C4 at a concrete call sequence and a concrete permutation. -/
theorem ledger_accumulates_witness :
    ([((1 : ℚ), (2 : ℤ)), (3, 4)].Perm [((3 : ℚ), (4 : ℤ)), (1, 2)]) ∧
    minutes_of (run_ledger [((3 : ℚ), (4 : ℤ)), (1, 2)])
      = minutes_of (run_ledger [((1 : ℚ), (2 : ℤ)), (3, 4)]) :=
  ⟨List.Perm.swap _ _ _,
   ((ledger_accumulates [((1 : ℚ), (2 : ℤ)), (3, 4)]).2.2.2.2
      [((3 : ℚ), (4 : ℤ)), (1, 2)] (List.Perm.swap _ _ _)).1⟩

/-! ## ASR data model (src/asr/models.py) -/

/-- `WordTimestamp` pydantic model. -/
structure WordTimestamp where
  word : String
  start : ℚ
  «end» : ℚ
  confidence : Option ℚ
deriving DecidableEq

/-- `TranscriptionSegment` pydantic model. -/
structure TranscriptionSegment where
  text : String
  translated_text : Option String := none
  start : ℚ
  «end» : ℚ
  words : List WordTimestamp := []
deriving DecidableEq

/-- `TranscriptionResult` pydantic model. -/
structure TranscriptionResult where
  text : String
  translated_text : Option String := none
  summarized_content : Option String := none
  language : String
  segments : List TranscriptionSegment := []
  processing_time : ℚ
  model : String
  confidence : Option ℚ := none
deriving DecidableEq

/-! ## The WhisperX pipeline (src/asr/core.py) -/

/-- One entry of a raw WhisperX `words` list: a dict read with
`word_info.get("word", "")`, `.get("start", 0.0)`, `.get("end", 0.0)`,
`.get("score", None)`. -/
structure RawWord where
  word : String := ""
  start : ℚ := 0
  «end» : ℚ := 0
  score : Option ℚ := none
deriving DecidableEq

/-- One raw WhisperX segment dict, read with `.get("text", "")`,
`.get("start", 0.0)`, `.get("end", 0.0)`, `.get("words", [])`. -/
structure RawSegment where
  text : String := ""
  start : ℚ := 0
  «end» : ℚ := 0
  words : List RawWord := []
deriving DecidableEq

/-- The aligned WhisperX result dict handed to
`_convert_to_result_format`: its `segments` list and the detected
`language`.  The dict carries no `model_size` key, so
`whisperx_result.get('model_size', 'unknown')` yields `"unknown"`. -/
structure WhisperXResult where
  segments : List RawSegment
  language : String
deriving DecidableEq

/-- Python exceptions that the embedded pipeline raises or propagates. -/
inductive PyErr
  | fileNotFound
  | nameError
  | runtimeError
  | generic
deriving DecidableEq

/-- `AudioTranscriber._convert_to_result_format`.  The overall confidence
is the average of all word scores (None when there are no segments or no
scored words), and the full text is `" ".join(seg.text for seg in
segments)`. -/
def _convert_to_result_format (w : WhisperXResult) (processing_time : ℚ) :
    TranscriptionResult :=
  let segments := w.segments.map (fun s =>
    { text := s.text
      start := s.start
      «end» := s.«end»
      words := s.words.map (fun wd =>
        { word := wd.word, start := wd.start, «end» := wd.«end», confidence := wd.score })
      translated_text := none })
  let word_confidences : List ℚ :=
    (segments.map (fun s => s.words.filterMap (fun wd => wd.confidence))).flatten
  let overall_confidence :=
    if !segments.isEmpty && !word_confidences.isEmpty then
      some (word_confidences.sum / (word_confidences.length : ℚ))
    else none
  { text := String.intercalate " " (segments.map (fun s => s.text))
    language := w.language
    segments := segments
    processing_time := processing_time
    model := "whisperx-unknown"
    confidence := overall_confidence }

/-- The optional post-conversion translation pass of `transcribe_audio`
(lines 261-293 of core.py): each segment gets `translated_text` set to the
translator's output, or `"NA"` when the translator returns `None`, and the
result's `translated_text` is the `" ".join` of those per-segment values.
The `text` field and the segments' `text` fields are not modified.
(The earlier real-time translation loop over the pre-alignment segments
only annotates dicts that `whisperx.align` then replaces, so it has no
effect on the returned result and is not modelled.) -/
def apply_translation (translate : String → Option String)
    (r : TranscriptionResult) : TranscriptionResult :=
  let tfor := fun (s : TranscriptionSegment) => (translate s.text).getD "NA"
  { r with
    segments := r.segments.map (fun s => { s with translated_text := some (tfor s) })
    translated_text := some (String.intercalate " " (r.segments.map tfor)) }

/-- Environment of one `transcribe_audio` call: whether the audio file
exists, the outcome of the WhisperX load/transcribe/align calls, and the
wall-clock `time.time() - start_time` value reaching the converter. -/
structure AudioEnv where
  file_exists : Bool
  aligned : Except PyErr WhisperXResult
  elapsed : ℚ

/-- `AudioTranscriber.transcribe_audio`.  The module-level import of
`TextTranslator` succeeds in this deployment, so `TRANSLATION_AVAILABLE`
is `True`.  `TYPO_CORRECTOR_AVAILABLE`, however, is not defined anywhere
in core.py (there is no import for it), so when `correct_typos` is truthy
the guard `if correct_typos and TYPO_CORRECTOR_AVAILABLE:` raises
`NameError`, which the surrounding `except Exception` handler logs and
re-raises; when `correct_typos` is falsy the `and` short-circuits and the
undefined name is never evaluated. -/
def transcribe_audio (env : AudioEnv) (translate_to : Option String)
    (translate : String → Option String) (correct_typos : Bool) :
    Except PyErr TranscriptionResult :=
  if !env.file_exists then .error .fileNotFound
  else
    match env.aligned with
    | .error e => .error e
    | .ok w =>
      let r := _convert_to_result_format w env.elapsed
      if correct_typos then .error .nameError
      else
        let r := if translate_to.isSome then apply_translation translate r else r
        .ok r

/-- Environment of one `transcribe_video` call: whether the video file
exists, the converter's `extract_audio_from_video` result (`None` on
failure), and the environment of the inner `transcribe_audio` call. -/
structure VideoEnv where
  file_exists : Bool
  extract_result : Option String
  audio : AudioEnv

/-- `AudioTranscriber.transcribe_video`.  Returns the call's outcome
together with whether the extracted temporary audio file still exists on
the filesystem after the call returns.  The `finally` block unlinks the
extracted file on every exit path on which it was created. -/
def transcribe_video (video_name : String) (env : VideoEnv)
    (translate_to : Option String) (translate : String → Option String)
    (correct_typos : Bool) : Except PyErr TranscriptionResult × Bool :=
  if !env.file_exists then (.error .fileNotFound, false)
  else
    match env.extract_result with
    | none =>
      -- `raise RuntimeError("Failed to extract audio from video")`;
      -- the finally block finds temp_audio_path falsy, nothing to delete
      (.error .runtimeError, false)
    | some _ =>
      -- the extracted temp audio file now exists
      let audio_exists₀ := true
      let res := (transcribe_audio env.audio translate_to translate correct_typos).map
        (fun r => { r with text := "[Video: " ++ video_name ++ "] " ++ r.text })
      -- finally: Path(temp_audio_path).unlink() when the file exists
      let audio_exists₁ := if audio_exists₀ then false else audio_exists₀
      (res, audio_exists₁)

/-! ## The /transcribe endpoint (main.py transcribe_endpoint) -/

/-- Observable side effects of one endpoint invocation, in order. -/
inductive Ev
  | transcriber_called
  | usage_updated (user_id : String) (minutes : ℚ) (bytes : ℤ)
deriving DecidableEq

/-- Caller-visible outcome: a 200 response or an HTTPException. -/
inductive Outcome
  | ok
  | http (code : Nat)
deriving DecidableEq

/-- Environment of one `/transcribe` request.  `transcriber_init` is the
outcome of `get_transcriber()` (an `Except.error` models the
`HTTPException(500)` that accessor raises when `AudioTranscriber()`
fails to construct); `transcribe` is the outcome of the
`transcriber.transcribe_video(...)` / `transcriber.transcribe_audio(...)`
call the endpoint makes; `file_size` is `os.path.getsize(temp_path)`. -/
structure EndpointEnv where
  user_id : Option String
  get_usage_metrics : String → Option UsageRecord
  transcriber_init : Except Unit Unit
  transcribe : Except PyErr TranscriptionResult
  file_size : ℤ

/-- What one endpoint invocation produced: the outcome, the ordered side
effects, and whether the staged upload copy (the `NamedTemporaryFile`)
still exists on the filesystem after the handler returns. -/
structure EndpointRun where
  outcome : Outcome
  events : List Ev
  temp_file_remains : Bool
deriving DecidableEq

/-- `transcribe_endpoint` from main.py.

Control flow of the source, in order:
1. `if user_id: check_quota(user_id)` — a 403 raised here propagates
   before the temp file is even created;
2. the upload is staged to a temp file inside the `try`;
3. `get_transcriber()` — if it raises `HTTPException`, the
   `except HTTPException as he: raise he` arm re-raises it WITHOUT
   removing the staged temp file;
4. the transcriber call — a generic exception lands in
   `except Exception`, which removes the temp file and raises a 500;
5. on success, `duration_seconds = result.segments[-1].end if
   result.segments else 0`; the storage upload and file-record inserts
   swallow their own errors and produce no modelled events; then
   `if user_id:` the ledger is updated with
   `minutes = duration_seconds / 60.0` and the temp file is removed
   before returning.  -/
def transcribe_endpoint (env : EndpointEnv) : EndpointRun :=
  if pyTruthy env.user_id &&
      decide (check_quota env.user_id env.get_usage_metrics = .forbidden) then
    { outcome := .http 403, events := [], temp_file_remains := false }
  else
    match env.transcriber_init with
    | .error _ =>
      { outcome := .http 500, events := [], temp_file_remains := true }
    | .ok _ =>
      match env.transcribe with
      | .error _ =>
        { outcome := .http 500
          events := [.transcriber_called]
          temp_file_remains := false }
      | .ok result =>
        let duration_seconds : ℚ :=
          match result.segments.getLast? with
          | some s => s.«end»
          | none => 0
        let usage_events : List Ev :=
          match env.user_id with
          | some uid =>
            if uid = "" then []
            else [.usage_updated uid (duration_seconds / 60.0) env.file_size]
          | none => []
        { outcome := .ok
          events := .transcriber_called :: usage_events
          temp_file_remains := false }

/-- C2: a request by a user whose usage row is at or above the quota is
rejected with the 403 before the transcriber backend is invoked: the
transcriber call count is zero and no usage-ledger update occurs. -/
theorem quota_rejects_before_transcriber (env : EndpointEnv) (uid : String)
    (m : UsageRecord) (h1 : env.user_id = some uid) (h2 : uid ≠ "")
    (h3 : env.get_usage_metrics uid = some m)
    (h4 : MONTHLY_LIMIT_MINUTES ≤ m.minutes_processed.getD 0) :
    (transcribe_endpoint env).outcome = .http 403 ∧
    (transcribe_endpoint env).events.count .transcriber_called = 0 ∧
    (∀ e ∈ (transcribe_endpoint env).events, ∀ u mi b, e ≠ .usage_updated u mi b) := by
  have hq : check_quota env.user_id env.get_usage_metrics = .forbidden := by
    rw [h1]
    simp only [check_quota, if_neg h2, h3, ge_iff_le, if_pos h4]
  have ht : pyTruthy env.user_id = true := by
    rw [h1]; simpa [pyTruthy] using h2
  have hcond : (pyTruthy env.user_id &&
      decide (check_quota env.user_id env.get_usage_metrics = .forbidden)) = true := by
    rw [ht, hq]; simp
  rw [transcribe_endpoint, if_pos hcond]
  refine ⟨rfl, rfl, ?_⟩
  intro e he
  simp at he

/-- Witness for C2 at a concrete over-quota request. -/
theorem quota_rejects_before_transcriber_witness :
    (({ user_id := some "u"
        get_usage_metrics := fun _ => some ⟨some 12, some 0⟩
        transcriber_init := .ok ()
        transcribe := .error .generic
        file_size := 7 } : EndpointEnv).user_id = some "u") ∧
    (transcribe_endpoint
      { user_id := some "u"
        get_usage_metrics := fun _ => some ⟨some 12, some 0⟩
        transcriber_init := .ok ()
        transcribe := .error .generic
        file_size := 7 }).outcome = .http 403 :=
  ⟨rfl,
   (quota_rejects_before_transcriber
      { user_id := some "u"
        get_usage_metrics := fun _ => some ⟨some 12, some 0⟩
        transcriber_init := .ok ()
        transcribe := .error .generic
        file_size := 7 }
      "u" ⟨some 12, some 0⟩ rfl (by decide) rfl (by norm_num [MONTHLY_LIMIT_MINUTES])).1⟩

/-- The duration the endpoint derives from a pipeline result:
`result.segments[-1].end if result.segments else 0`. -/
def duration_of (r : TranscriptionResult) : ℚ :=
  match r.segments.getLast? with
  | some s => s.«end»
  | none => 0

/-- C3: on every successful invocation the duration fed to the ledger is
the end timestamp of the last segment (0 when there are no segments), the
recorded minutes delta is that duration divided by 60.0, and the
wall-clock `processing_time` of the result plays no role. -/
theorem metering_uses_last_segment_end (env : EndpointEnv) (uid : String)
    (r : TranscriptionResult)
    (h1 : env.user_id = some uid) (h2 : uid ≠ "")
    (hq : check_quota env.user_id env.get_usage_metrics = .admitted)
    (hi : env.transcriber_init = .ok ())
    (hr : env.transcribe = .ok r) :
    (transcribe_endpoint env).events =
      [.transcriber_called,
       .usage_updated uid (duration_of r / 60.0) env.file_size] ∧
    (∀ pt, transcribe_endpoint { env with transcribe := .ok { r with processing_time := pt } }
        = transcribe_endpoint env) := by
  have hcond : (pyTruthy env.user_id &&
      decide (check_quota env.user_id env.get_usage_metrics = .forbidden)) = false := by
    rw [hq]; simp
  constructor
  · rw [transcribe_endpoint, if_neg (by simp [hcond]), hi, hr]
    simp only [h1, if_neg h2, duration_of]
  · intro pt
    rw [transcribe_endpoint, transcribe_endpoint, hi, hr]

/-- Witness for C3: a 90-second single-segment result for user "u" meters
exactly 1.5 minutes. -/
theorem metering_uses_last_segment_end_witness :
    (transcribe_endpoint
      { user_id := some "u"
        get_usage_metrics := fun _ => none
        transcriber_init := .ok ()
        transcribe := .ok
          { text := "hi", language := "en"
            segments := [{ text := "hi", start := 0, «end» := 90 }]
            processing_time := 3, model := "whisperx-unknown" }
        file_size := 42 }).events =
      [.transcriber_called,
       .usage_updated "u"
         ((duration_of
            { text := "hi", language := "en"
              segments := [{ text := "hi", start := 0, «end» := 90 }]
              processing_time := 3, model := "whisperx-unknown" }) / 60.0) 42] :=
  (metering_uses_last_segment_end
    { user_id := some "u"
      get_usage_metrics := fun _ => none
      transcriber_init := .ok ()
      transcribe := .ok
        { text := "hi", language := "en"
          segments := [{ text := "hi", start := 0, «end» := 90 }]
          processing_time := 3, model := "whisperx-unknown" }
      file_size := 42 }
    "u"
    { text := "hi", language := "en"
      segments := [{ text := "hi", start := 0, «end» := 90 }]
      processing_time := 3, model := "whisperx-unknown" }
    rfl (by decide) rfl rfl rfl).1

/-! ## Temporary-file lifecycle (C5) -/

/-- A concrete request on which the staged upload copy leaks: the quota
gate admits (no user), the upload is staged, and then `get_transcriber()`
raises `HTTPException(500)` because the transcriber fails to construct.
The `except HTTPException as he: raise he` arm of `transcribe_endpoint`
re-raises without removing the temp file. -/
def leaking_env : EndpointEnv :=
  { user_id := none
    get_usage_metrics := fun _ => none
    transcriber_init := .error ()
    transcribe := .error .generic
    file_size := 0 }

/-- Counterexample to C5 as stated: on the HTTPException exit path of
`transcribe_endpoint` the staged upload copy is still present on the
filesystem after the handler exits. -/
theorem temp_cleanup_counterexample :
    (transcribe_endpoint leaking_env).outcome = .http 500 ∧
    (transcribe_endpoint leaking_env).temp_file_remains = true := by
  constructor <;> rfl

/-- C5 (amended): the extracted-audio file of `transcribe_video` is absent
after the call on every exit path; the endpoint's staged upload copy is
absent after every exit on which `get_transcriber()` succeeded (success
and generic exceptions — but not the HTTPException path, see the
counterexample); and in the extraction-succeeds/transcription-raises
scenario the extracted audio is deleted, the call surfaces a fatal
failure, and no usage-ledger update occurs. -/
theorem temp_cleanup_amended (video_name : String) (venv : VideoEnv)
    (translate_to : Option String) (translate : String → Option String)
    (correct_typos : Bool) (env : EndpointEnv) (p : String) (e : PyErr)
    (hinit : env.transcriber_init = .ok ())
    (hfe : venv.file_exists = true)
    (hext : venv.extract_result = some p)
    (hfail : transcribe_audio venv.audio translate_to translate correct_typos = .error e)
    (hwire : env.transcribe = (transcribe_video video_name venv translate_to translate correct_typos).1) :
    (∀ (vn : String) (v : VideoEnv) (tt : Option String)
        (tr : String → Option String) (ct : Bool),
      (transcribe_video vn v tt tr ct).2 = false) ∧
    (∀ env2 : EndpointEnv, env2.transcriber_init = .ok () →
      (transcribe_endpoint env2).temp_file_remains = false) ∧
    (transcribe_video video_name venv translate_to translate correct_typos).2 = false ∧
    env.transcribe = .error e ∧
    (transcribe_endpoint env).temp_file_remains = false ∧
    (∀ ev ∈ (transcribe_endpoint env).events, ∀ u mi b, ev ≠ .usage_updated u mi b) := by
  have hvid : ∀ (vn : String) (v : VideoEnv) (tt : Option String)
      (tr : String → Option String) (ct : Bool),
      (transcribe_video vn v tt tr ct).2 = false := by
    intro vn v tt tr ct
    rw [transcribe_video]
    rcases hfe : v.file_exists with _ | _
    · simp [hfe]
    · rcases hex : v.extract_result with _ | q
      · simp [hfe, hex]
      · simp [hfe, hex]
  have hendpoint : ∀ env2 : EndpointEnv, env2.transcriber_init = .ok () →
      (transcribe_endpoint env2).temp_file_remains = false := by
    intro env2 h2
    rw [transcribe_endpoint]
    by_cases hc : (pyTruthy env2.user_id &&
        decide (check_quota env2.user_id env2.get_usage_metrics = .forbidden)) = true
    · rw [if_pos hc]
    · rw [if_neg hc, h2]
      cases hr : env2.transcribe with
      | error e2 => rfl
      | ok result => rfl
  have hverr : env.transcribe = .error e := by
    rw [hwire, transcribe_video]
    simp [hfe, hext, hfail, Except.map]
  have hnousage : ∀ ev ∈ (transcribe_endpoint env).events,
      ∀ u mi b, ev ≠ .usage_updated u mi b := by
    intro ev hev u mi b
    rw [transcribe_endpoint] at hev
    by_cases hc : (pyTruthy env.user_id &&
        decide (check_quota env.user_id env.get_usage_metrics = .forbidden)) = true
    · rw [if_pos hc] at hev
      simp at hev
    · rw [if_neg hc, hinit, hverr] at hev
      simp only [List.mem_singleton] at hev
      subst hev
      simp
  exact ⟨hvid, hendpoint, hvid _ _ _ _ _, hverr, hendpoint env hinit, hnousage⟩

/-- Concrete video environment for the C5 scenario: extraction succeeds,
the inner transcription raises. -/
def c5_video_env : VideoEnv :=
  { file_exists := true
    extract_result := some "a_audio.wav"
    audio := { file_exists := true, aligned := .error .generic, elapsed := 0 } }

/-- Concrete endpoint environment wired to the C5 scenario. -/
def c5_endpoint_env : EndpointEnv :=
  { user_id := none
    get_usage_metrics := fun _ => none
    transcriber_init := .ok ()
    transcribe := (transcribe_video "v.mp4" c5_video_env none (fun _ => none) false).1
    file_size := 0 }

/-- Witness for C5 (amended) at the concrete scenario-4 instance. -/
theorem temp_cleanup_amended_witness :
    (transcribe_video "v.mp4" c5_video_env none (fun _ => none) false).2 = false ∧
    c5_endpoint_env.transcribe = .error .generic ∧
    (transcribe_endpoint c5_endpoint_env).temp_file_remains = false :=
  have h := temp_cleanup_amended "v.mp4" c5_video_env none (fun _ => none) false
    c5_endpoint_env "a_audio.wav" .generic rfl rfl rfl rfl rfl
  ⟨h.2.2.1, h.2.2.2.1, h.2.2.2.2.1⟩

/-! ## Segment-join invariant (C6) and typo correction (C7) -/

/-- Python's `str.strip()`: leading and trailing whitespace removed. -/
def pyStrip (s : String) : String :=
  String.mk (((s.data.dropWhile Char.isWhitespace).reverse.dropWhile Char.isWhitespace).reverse)

theorem apply_translation_preserves_texts (tr : String → Option String)
    (r : TranscriptionResult) :
    (apply_translation tr r).text = r.text ∧
    (apply_translation tr r).segments.map (fun s => s.text)
      = r.segments.map (fun s => s.text) := by
  refine ⟨rfl, ?_⟩
  simp [apply_translation, List.map_map, Function.comp]

/-- C6 (amended): every result returned by `transcribe_audio` satisfies
the join invariant exactly — `" ".join(seg.text)` over the segments is
the `text` field (the converter builds `text` that way and neither the
translation pass nor any other surviving stage rewrites it).
`transcribe_video`, by contrast, prepends a `[Video: <name>]` marker to
`text` without touching the segments, so the invariant fails there (see
the counterexample). -/
theorem segments_join_reproduces_text (env : AudioEnv) (tt : Option String)
    (tr : String → Option String) (ct : Bool) (r : TranscriptionResult)
    (h : transcribe_audio env tt tr ct = .ok r) :
    String.intercalate " " (r.segments.map (fun s => s.text)) = r.text := by
  rw [transcribe_audio] at h
  cases hfe : env.file_exists with
  | false => rw [hfe] at h; simp at h
  | true =>
    rw [hfe] at h
    cases halign : env.aligned with
    | error e => rw [halign] at h; simp at h
    | ok w =>
      rw [halign] at h
      cases ct with
      | true => simp at h
      | false =>
        simp only [Bool.not_true, Bool.false_eq_true, if_false, Except.ok.injEq] at h
        subst h
        cases htt : tt.isSome with
        | false =>
          simp only [htt, Bool.false_eq_true, if_false]
          exact rfl
        | true =>
          simp only [htt, if_true]
          rw [(apply_translation_preserves_texts tr _).1,
            (apply_translation_preserves_texts tr _).2]
          exact rfl

/-- Witness for C6 (amended) at a concrete two-segment audio run. -/
theorem segments_join_reproduces_text_witness :
    (transcribe_audio
        { file_exists := true
          aligned := .ok { segments := [{ text := "ab" }, { text := "cd" }], language := "en" }
          elapsed := 1 } none (fun _ => none) false
      = .ok (_convert_to_result_format
          { segments := [{ text := "ab" }, { text := "cd" }], language := "en" } 1)) ∧
    String.intercalate " "
        ((_convert_to_result_format
          { segments := [{ text := "ab" }, { text := "cd" }], language := "en" } 1).segments.map
            (fun s => s.text))
      = (_convert_to_result_format
          { segments := [{ text := "ab" }, { text := "cd" }], language := "en" } 1).text :=
  ⟨rfl,
   segments_join_reproduces_text
    { file_exists := true
      aligned := .ok { segments := [{ text := "ab" }, { text := "cd" }], language := "en" }
      elapsed := 1 } none (fun _ => none) false _ rfl⟩

/-- Concrete video environment exhibiting the `[Video: ...]` prefix. -/
def c6_video_env : VideoEnv :=
  { file_exists := true
    extract_result := some "a_audio.wav"
    audio :=
      { file_exists := true
        aligned := .ok { segments := [{ text := "hello", start := 0, «end» := 2 }], language := "en" }
        elapsed := 1 } }

/-- The result that video run returns. -/
def c6_result : TranscriptionResult :=
  { text := "[Video: v.mp4] hello"
    language := "en"
    segments := [{ text := "hello", start := 0, «end» := 2 }]
    processing_time := 1
    model := "whisperx-unknown"
    confidence := none }

/-- Counterexample to C6 as stated: `transcribe_video` returns a result
whose segment texts joined with a single space give "hello" while `text`
is "[Video: v.mp4] hello" — unequal even after stripping leading and
trailing whitespace. -/
theorem video_prefix_breaks_join :
    (transcribe_video "v.mp4" c6_video_env none (fun _ => none) false).1 = .ok c6_result ∧
    pyStrip (String.intercalate " " (c6_result.segments.map (fun s => s.text)))
      ≠ pyStrip c6_result.text := by
  constructor
  · rfl
  · decide

/-- C7: with `correct_typos` requested, every `transcribe_audio` run that
reaches the typo-correction stage aborts with a `NameError` — the module
never defines `TYPO_CORRECTOR_AVAILABLE`, so the stage guard itself
raises, the outer `except Exception` re-raises, and the caller gets a
fatal failure instead of the claimed non-fatal degradation. -/
theorem typo_correction_always_fatal (env : AudioEnv) (tt : Option String)
    (tr : String → Option String) (w : WhisperXResult)
    (h1 : env.file_exists = true) (h2 : env.aligned = .ok w) :
    transcribe_audio env tt tr true = .error .nameError := by
  rw [transcribe_audio]
  simp [h1, h2]

/-- Witness for C7 at a concrete audio environment. -/
theorem typo_correction_always_fatal_witness :
    transcribe_audio
      { file_exists := true
        aligned := .ok { segments := [{ text := "hi" }], language := "en" }
        elapsed := 1 } none (fun _ => none) true = .error .nameError :=
  typo_correction_always_fatal
    { file_exists := true
      aligned := .ok { segments := [{ text := "hi" }], language := "en" }
      elapsed := 1 } none (fun _ => none)
    { segments := [{ text := "hi" }], language := "en" } rfl rfl

/-! ## Translation backend selection (src/translation.py) -/

/-- The two translation backends `translate_text` can dispatch to. -/
inductive TransBackend
  | google
  | nllb
deriving DecidableEq

/-- `TextTranslator._should_use_context`: contextual translation for
texts longer than 4000 characters. -/
def _should_use_context (text : String) : Bool :=
  decide (4000 < text.length)

/-- The dispatch decision of `TextTranslator.translate_text`: when
`context` is false but `_should_use_context` holds, `context` is flipped
to `True`; then `context` selects `_translate_nllb`, otherwise
`_translate_google`. -/
def translate_text_dispatch (text : String) (context : Bool) : TransBackend :=
  let context := if !context && _should_use_context text then true else context
  if context then .nllb else .google

/-- `TextTranslator._translate_google`.  `google_call` stands for
`GoogleTranslator(target=...).translate`; an `Except.error` models the
call raising.  Texts longer than 5000 characters are truncated to their
first 5000 characters (`text[:5000]`, a warning is logged first), and the
whole body sits in a `try/except` that converts any exception into a
`None` return.  The middle component records the text actually sent to
the backend and the last component whether the length warning fired. -/
def _translate_google (google_call : String → Except Unit String)
    (text : String) : Option String × String × Bool :=
  let warned := decide (5000 < text.length)
  let text := if 5000 < text.length then String.mk (text.data.take 5000) else text
  match google_call text with
  | .ok s => (some s, text, warned)
  | .error _ => (none, text, warned)

/-- C8: with `context=False`, a 4001-character text is routed to the
slower contextual NLLB backend and a 3999-character text to the fast
Google backend; when the fast backend receives a 5001-character text it
truncates it to exactly its first 5000 characters before the call, with
the warning recorded, and even a failing backend call yields `None`
rather than an exception. -/
theorem translation_backend_selection (t1 t2 t3 : String)
    (h1 : t1.length = 4001) (h2 : t2.length = 3999) (h3 : t3.length = 5001) :
    translate_text_dispatch t1 false = .nllb ∧
    translate_text_dispatch t2 false = .google ∧
    (∀ google_call,
      (_translate_google google_call t3).2.1 = String.mk (t3.data.take 5000) ∧
      (_translate_google google_call t3).2.1.length = 5000 ∧
      (_translate_google google_call t3).2.2 = true) ∧
    (_translate_google (fun _ => .error ()) t3).1 = none := by
  have hlen3 : 5000 < t3.length := by omega
  refine ⟨?_, ?_, ?_, ?_⟩
  · have : _should_use_context t1 = true := by
      simp [_should_use_context, h1]
    simp [translate_text_dispatch, this]
  · have : _should_use_context t2 = false := by
      simp [_should_use_context, h2]
    simp [translate_text_dispatch, this]
  · intro google_call
    have htr : (if 5000 < t3.length then String.mk (t3.data.take 5000) else t3)
        = String.mk (t3.data.take 5000) := if_pos hlen3
    have hlen : (String.mk (t3.data.take 5000)).length = 5000 := by
      show (t3.data.take 5000).length = 5000
      rw [List.length_take]
      have : t3.data.length = 5001 := h3
      omega
    refine ⟨?_, ?_, ?_⟩
    · simp only [_translate_google, htr]
      cases google_call (String.mk (t3.data.take 5000)) <;> rfl
    · simp only [_translate_google, htr]
      cases google_call (String.mk (t3.data.take 5000)) <;> simpa using hlen
    · simp only [_translate_google, htr]
      cases google_call (String.mk (t3.data.take 5000)) <;>
        simp [decide_eq_true_eq, hlen3]
  · simp only [_translate_google]

/-- Witness for C8 on concrete texts of lengths 4001, 3999 and 5001. -/
theorem translation_backend_selection_witness :
    ((String.mk (List.replicate 4001 'a')).length = 4001) ∧
    translate_text_dispatch (String.mk (List.replicate 4001 'a')) false = .nllb ∧
    translate_text_dispatch (String.mk (List.replicate 3999 'a')) false = .google :=
  have l1 : (String.mk (List.replicate 4001 'a')).length = 4001 := by
    show (List.replicate 4001 'a').length = 4001
    rw [List.length_replicate]
  have l2 : (String.mk (List.replicate 3999 'a')).length = 3999 := by
    show (List.replicate 3999 'a').length = 3999
    rw [List.length_replicate]
  have l3 : (String.mk (List.replicate 5001 'a')).length = 5001 := by
    show (List.replicate 5001 'a').length = 5001
    rw [List.length_replicate]
  have h := translation_backend_selection
    (String.mk (List.replicate 4001 'a'))
    (String.mk (List.replicate 3999 'a'))
    (String.mk (List.replicate 5001 'a')) l1 l2 l3
  ⟨l1, h.1, h.2.1⟩

/-! ## Summarization chunking (src/summarizer/core.py) -/

theorem dropWhile_length_le (p : Char → Bool) (l : List Char) :
    (l.dropWhile p).length ≤ l.length := by
  induction l with
  | nil => simp
  | cons c rest ih =>
    rw [List.dropWhile_cons]
    split
    · exact le_trans ih (Nat.le_succ _)
    · simp

/-- The characters the sentence-splitting regex of `_chunk_text` looks
behind for: `[.!?]`. -/
def isSentenceEnd (c : Char) : Bool := c = '.' || c = '!' || c = '?'

/-- Character-level engine of `re.split(r'(?<=[.!?])\s+', text)`: a
maximal whitespace run whose first character is preceded by `.`, `!` or
`?` separates two sentences and is consumed; every other character stays
in the current sentence.  `acc` holds the current sentence reversed and
`prev` is the previously consumed character. -/
def splitSentencesAux : List Char → List Char → Option Char → List String
  | [], acc, _ => [String.mk acc.reverse]
  | c :: rest, acc, prev =>
    if c.isWhitespace &&
        (match prev with | some p => isSentenceEnd p | none => false) then
      String.mk acc.reverse ::
        splitSentencesAux (rest.dropWhile Char.isWhitespace) [] none
    else
      splitSentencesAux rest (c :: acc) (some c)
termination_by l _ _ => l.length
decreasing_by
  · have := dropWhile_length_le Char.isWhitespace rest
    simp only [List.length_cons]
    omega
  · simp only [List.length_cons]
    omega

/-- `re.split(r'(?<=[.!?])\s+', s)` as used by `_chunk_text`. -/
def splitSentences (s : String) : List String :=
  splitSentencesAux s.data [] none

/-- The chunk-packing loop of `_chunk_text`: consecutive sentences are
joined with a single space while the overflow check
`len(current) + len(sentence) > chunk_size` (which does not count the
joining space) stays false; on overflow the non-empty current chunk is
emitted and the sentence starts the next chunk. -/
def packChunks (chunk_size : Nat) : List String → String → List String
  | [], current => if current = "" then [] else [current]
  | s :: rest, current =>
    if chunk_size < current.length + s.length then
      if current = "" then packChunks chunk_size rest s
      else current :: packChunks chunk_size rest s
    else
      packChunks chunk_size rest (if current = "" then s else current ++ " " ++ s)

/-- `ContentProcessor._chunk_text`. -/
def _chunk_text (text : String) (chunk_size : Nat) : List String :=
  packChunks chunk_size (splitSentences (pyStrip text)) ""

/-- The bullet list built by `_format_summary`:
`"\n".join(f"- {l.strip()}" for l in text.split(". ") if l.strip())`. -/
def bulletLines (text : String) : String :=
  String.intercalate "\n"
    ((text.splitOn ". ").filterMap
      (fun l => if pyStrip l = "" then none else some ("- " ++ pyStrip l)))

/-- `ContentProcessor._format_summary`. -/
def _format_summary (text : String) (style : String) : String :=
  if style = "bullet_points" then bulletLines text
  else if style = "paragraph" then pyStrip (text.replace "\n" " ")
  else if style = "both" then
    "Bullet Points:\n" ++ bulletLines text ++ "\n\nParagraph Summary:\n"
      ++ pyStrip (text.replace "\n" " ")
  else
    pyStrip ("\nMain Idea:\n" ++ text ++ "\n\nKey Points:\n" ++ bulletLines text
      ++ "\n\nConclusion:\nThis summarizes the most important elements of the content.\n")

/-- The fallback of `summarize`: a style outside the allowed set becomes
"structured". -/
def norm_style (summary_style : String) : String :=
  if summary_style = "bullet_points" ∨ summary_style = "paragraph"
      ∨ summary_style = "both" ∨ summary_style = "structured" then summary_style
  else "structured"

/-- `ContentProcessor.summarize`.  `gen` stands for `_generate_summary`
(the mT5 generation call, a pure text-to-text collaborator here); the
second component counts how many times it is invoked.  `_load_model`
only loads the HF models and has no modelled effect. -/
def summarize (gen : String → String) (text : String) (summary_style : String) :
    String × Nat :=
  let summary_style := norm_style summary_style
  if 2000 < text.length then
    let chunks := _chunk_text text 1300
    let partials := chunks.map gen
    let merged := String.intercalate " " partials
    let final_summary := gen merged
    (_format_summary final_summary summary_style, chunks.length + 1)
  else
    (_format_summary (gen text) summary_style, 1)

theorem packChunks_bound (cs : Nat) (Q : String → Prop) :
    ∀ (ss : List String) (cur : String),
      (∀ s ∈ ss, Q s) → (cur.length ≤ cs + 1 ∨ Q cur) →
      ∀ c ∈ packChunks cs ss cur, c.length ≤ cs + 1 ∨ Q c := by
  intro ss
  induction ss with
  | nil =>
    intro cur hss hcur c hc
    simp only [packChunks] at hc
    by_cases hemp : cur = ""
    · rw [if_pos hemp] at hc
      simp at hc
    · rw [if_neg hemp] at hc
      rcases List.mem_singleton.mp hc with rfl
      exact hcur
  | cons s rest ih =>
    intro cur hss hcur c hc
    have hQs : Q s := hss s (by simp)
    have hrest : ∀ x ∈ rest, Q x := fun x hx => hss x (List.mem_cons_of_mem s hx)
    simp only [packChunks] at hc
    by_cases hov : cs < cur.length + s.length
    · rw [if_pos hov] at hc
      by_cases hemp : cur = ""
      · rw [if_pos hemp] at hc
        exact ih s hrest (Or.inr hQs) c hc
      · rw [if_neg hemp] at hc
        rcases List.mem_cons.mp hc with rfl | hc2
        · exact hcur
        · exact ih s hrest (Or.inr hQs) c hc2
    · rw [if_neg hov] at hc
      refine ih _ hrest ?_ c hc
      by_cases hemp : cur = ""
      · rw [if_pos hemp]
        exact Or.inr hQs
      · rw [if_neg hemp]
        left
        have hl : (cur ++ " " ++ s).length = cur.length + 1 + s.length := by
          rw [String.length_append, String.length_append]
          rfl
        omega

/-- C9: text longer than 2000 characters is summarized in two passes —
each chunk of `_chunk_text text 1300` is summarized independently, the
partial summaries are joined with spaces and summarized exactly once
more (so the generator runs `chunks + 1` times), and every chunk is
either a whole single sentence (possibly oversized) or at most 1301
characters (1300 plus one joining space); text of at most 2000
characters is summarized in a single pass with no chunking. -/
theorem summarize_two_pass (gen : String → String) (text : String)
    (style : String) :
    (2000 < text.length →
      (summarize gen text style).2 = (_chunk_text text 1300).length + 1 ∧
      (summarize gen text style).1
        = _format_summary
            (gen (String.intercalate " " ((_chunk_text text 1300).map gen)))
            (norm_style style) ∧
      ∀ c ∈ _chunk_text text 1300,
        c.length ≤ 1301 ∨ c ∈ splitSentences (pyStrip text)) ∧
    (text.length ≤ 2000 →
      (summarize gen text style).2 = 1 ∧
      (summarize gen text style).1 = _format_summary (gen text) (norm_style style)) := by
  constructor
  · intro hlen
    refine ⟨?_, ?_, ?_⟩
    · simp [summarize, if_pos hlen]
    · simp [summarize, if_pos hlen]
    · intro c hc
      exact packChunks_bound 1300 (fun x => x ∈ splitSentences (pyStrip text))
        (splitSentences (pyStrip text)) "" (fun s hs => hs)
        (Or.inl (by simp)) c hc
  · intro hlen
    have hnot : ¬ 2000 < text.length := by omega
    exact ⟨by simp [summarize, if_neg hnot], by simp [summarize, if_neg hnot]⟩

/-- Witness for C9: a 2500-character text takes the chunked two-pass
path, and a short text takes the single-pass path. -/
theorem summarize_two_pass_witness :
    (2000 < (String.mk (List.replicate 2500 'a')).length) ∧
    (summarize (fun _ => "s") (String.mk (List.replicate 2500 'a')) "structured").2
      = (_chunk_text (String.mk (List.replicate 2500 'a')) 1300).length + 1 ∧
    ("hi.".length ≤ 2000) ∧
    (summarize (fun _ => "s") "hi." "structured").2 = 1 :=
  have hl : (String.mk (List.replicate 2500 'a')).length = 2500 := by
    show (List.replicate 2500 'a').length = 2500
    rw [List.length_replicate]
  have h2 : 2000 < (String.mk (List.replicate 2500 'a')).length := by
    rw [hl]; norm_num
  have hs : ("hi." : String).length ≤ 2000 := by decide
  ⟨h2,
   ((summarize_two_pass (fun _ => "s") (String.mk (List.replicate 2500 'a')) "structured").1 h2).1,
   hs,
   ((summarize_two_pass (fun _ => "s") "hi." "structured").2 hs).1⟩

/-! ## Lazy backend accessors (src/asr/api.py) -/

/-- A constructed `AudioTranscriber` instance, identified by a
construction counter (each `AudioTranscriber()` call yields a fresh
object). -/
structure Transcriber where
  instance_id : Nat
deriving DecidableEq

/-- A constructed `ContentProcessor` instance, identified by a
construction counter.  `ContentProcessor.__init__` sets
`summary_model_name`, `qa_model_name` and `_loaded` — it never sets a
`model_size` attribute. -/
structure ContentProcessor where
  instance_id : Nat
deriving DecidableEq

/-- `getattr(instance, 'model_size', None)` on a `ContentProcessor`:
since the class never assigns `model_size`, this is always `None`. -/
def contentProcessor_getattr_model_size (_ : ContentProcessor) : Option String :=
  none

/-- `get_transcriber` from asr/api.py, acting on the module-global
`_transcriber` cache (first component of the return value is the
returned instance, second the new cache, third whether a new
`AudioTranscriber()` was constructed during the call; `fresh_id`
identifies the instance such a construction would produce). -/
def get_transcriber (cache : Option Transcriber) (fresh_id : Nat) :
    Transcriber × Option Transcriber × Bool :=
  match cache with
  | none => (⟨fresh_id⟩, some ⟨fresh_id⟩, true)
  | some t => (t, some t, false)

/-- `get_summarizer` from asr/api.py, acting on the module-global
`_summarizer` cache.  The refresh condition is
`_summarizer is None or getattr(_summarizer, 'model_size', None) != model_size`;
the `getattr` result is compared against the requested `model_size`
string with Python `!=` (here: `Option String` against
`some model_size`). -/
def get_summarizer (cache : Option ContentProcessor) (model_size : String)
    (fresh_id : Nat) : ContentProcessor × Option ContentProcessor × Bool :=
  match cache with
  | none => (⟨fresh_id⟩, some ⟨fresh_id⟩, true)
  | some s =>
    if contentProcessor_getattr_model_size s ≠ some model_size then
      (⟨fresh_id⟩, some ⟨fresh_id⟩, true)
    else (s, some s, false)

/-- C10 (code evaluation at the failing input): after a successful first
initialization with model size "small", a second `get_transcriber` call
returns the cached instance without constructing, but a second
`get_summarizer` call with the same "small" size constructs a brand-new
`ContentProcessor` and returns it — the cache check
`getattr(_summarizer, 'model_size', None) != model_size` compares `None`
against `"small"` and is therefore always true, so the summarizer cache
is never reused.  The general conjunct shows every `get_summarizer`
call constructs, whatever the cache holds. -/
theorem summarizer_cache_never_reused :
    ((get_transcriber ((get_transcriber none 0).2.1) 1).2.2 = false ∧
     (get_transcriber ((get_transcriber none 0).2.1) 1).1
       = (get_transcriber none 0).1) ∧
    ((get_summarizer ((get_summarizer none "small" 0).2.1) "small" 1).2.2 = true ∧
     (get_summarizer ((get_summarizer none "small" 0).2.1) "small" 1).1
       ≠ (get_summarizer none "small" 0).1) ∧
    (∀ (cache : Option ContentProcessor) (model_size : String) (fresh_id : Nat),
      (get_summarizer cache model_size fresh_id).2.2 = true) := by
  refine ⟨⟨rfl, rfl⟩, ⟨rfl, by decide⟩, ?_⟩
  intro cache model_size fresh_id
  cases cache with
  | none => rfl
  | some s =>
    have hne : contentProcessor_getattr_model_size s ≠ some model_size := by
      simp [contentProcessor_getattr_model_size]
    simp [get_summarizer, hne]
